import Mathlib

/-!
Shallow embedding of the query-suggestion engine of
src/DatabaseQuerySuggester.py (class PostgreSQLManager).

Statements are Lean Strings; the regex fragments the code relies on
(lazy groups with backtracking, word boundaries, case-insensitive
literal matching, the end-of-string anchor that also matches before a
final newline) are modelled character by character on List Char,
following CPython re semantics for these concrete patterns.
Case-insensitivity is modelled per character with Char.toUpper (ASCII),
matching the keywords involved.  The database cursor is modelled as an
optional executor function; a missing cursor corresponds to
self.cursor being None.
-/

namespace DatabaseQuerySuggester

/-- Python \s and str.strip() whitespace, restricted to ASCII. -/
def isPySpace (c : Char) : Bool :=
  c == ' ' || c == '\t' || c == '\n' || c == '\r' || c == '\x0b' || c == '\x0c'

/-- Python str.strip(): drop leading and trailing whitespace. -/
def pyStrip (l : List Char) : List Char :=
  ((l.dropWhile isPySpace).reverse.dropWhile isPySpace).reverse

/-- Regex word character \w (ASCII part): letters, digits, underscore. -/
def isWordChar (c : Char) : Bool := c.isAlphanum || c == '_'

/-- Case-insensitive literal match of `kw` at the head of the text. -/
def ciPrefix : List Char → List Char → Bool
  | [], _ => true
  | _ :: _, [] => false
  | k :: ks, c :: cs => (c.toUpper == k.toUpper) && ciPrefix ks cs

/-- Python substring containment (the `in` operator on str). -/
def containsSub (needle : List Char) : List Char → Bool
  | [] => needle.isEmpty
  | l@(_ :: rest) => needle.isPrefixOf l || containsSub needle rest

/-- Word boundary \b after a keyword: end of text or a non-word char. -/
def noWordCharAt : List Char → Bool
  | [] => true
  | c :: _ => !isWordChar c

/-- Word boundary \b before a keyword: start of text or a non-word char. -/
def prevBoundary : Option Char → Bool
  | none => true
  | some c => !isWordChar c

/-- The regex fragment \bKW\b matching at the current position, where
`prev` is the character just before that position (none at the start). -/
def wordKwAt (kw : List Char) (prev : Option Char) (s : List Char) : Bool :=
  prevBoundary prev && ciPrefix kw s && noWordCharAt (s.drop kw.length)

/-! ### The aggregate-keyword gate
The regex \b(COUNT|SUM|AVG|MIN|MAX|GROUP BY)\b searched case-insensitively
anywhere in the statement, used only for its success/failure. -/

def aggKws : List (List Char) :=
  ["COUNT".data, "SUM".data, "AVG".data, "MIN".data, "MAX".data, "GROUP BY".data]

def scanAggKw : Option Char → List Char → Bool
  | _, [] => false
  | prev, l@(c :: cs) => aggKws.any (fun kw => wordKwAt kw prev l) || scanAggKw (some c) cs

/-- Whether the statement contains one of COUNT, SUM, AVG, MIN, MAX or
GROUP BY as a whole word, case-insensitively. -/
def hasAggKw (l : List Char) : Bool := scanAggKw none l

/-! ### The projection-list regex
The search for SELECT\s+(.*?)\s+FROM, case-insensitive with DOTALL,
modelled with full backtracking: the first \s+ is greedy (tried longest
first), the group is lazy (tried shortest first), and the second \s+
can only take a whole whitespace run because FROM starts with a
non-space character. -/

/-- Length of the maximal whitespace run at the head of the text. -/
def wsRun : List Char → Nat
  | [] => 0
  | c :: cs => if isPySpace c then wsRun cs + 1 else 0

/-- Lazy search for the end of the group: the least prefix g of the text
such that what follows is at least one whitespace char and then FROM
(case-insensitive).  Returns (g, remainder from the end of the group). -/
def findGroupEnd : List Char → Option (List Char × List Char)
  | [] => none
  | l@(c :: cs) =>
    if wsRun l != 0 && ciPrefix "FROM".data (l.drop (wsRun l)) then some ([], l)
    else
      match findGroupEnd cs with
      | some (g, rem) => some (c :: g, rem)
      | none => none

/-- Greedy backtracking over the length j of the first whitespace run,
tried from the maximal run length downward. -/
def jLoop : Nat → List Char → Option (Nat × List Char × List Char)
  | 0, _ => none
  | j+1, rest =>
    match findGroupEnd (rest.drop (j+1)) with
    | some (g, rem) => some (j+1, g, rem)
    | none => jLoop j rest

/-- Leftmost match of the projection-list regex: returns the captured
group (the projection list) and the suffix of the statement from the
end of the group (match.end(1)), which the code reuses verbatim. -/
def searchSelectFrom : List Char → Option (List Char × List Char)
  | [] => none
  | l@(_ :: cs) =>
    if ciPrefix "SELECT".data l then
      match jLoop (wsRun (l.drop 6)) (l.drop 6) with
      | some (_, g, rem) => some (g, rem)
      | none => searchSelectFrom cs
    else searchSelectFrom cs

/-! ### The WHERE-clause regex
The search for \bWHERE\b(.*?)(?:\bGROUP BY\b|\bORDER BY\b|\bLIMIT\b|$),
case-insensitive with DOTALL.  The lazy group ends at the first
position where one of the three terminator keywords matches as a whole
word, or where $ matches: at the end of the statement or just before a
final newline. -/

def whereTerms : List (List Char) := ["GROUP BY".data, "ORDER BY".data, "LIMIT".data]

/-- Terminator alternation (including $) matching at the current position;
`prev` is the character just before it (the group start follows the E of
WHERE, so a previous character always exists). -/
def termAt (prev : Char) (l : List Char) : Bool :=
  whereTerms.any (fun kw => wordKwAt kw (some prev) l) || l == ['\n']

/-- Lazy scan for the end of the WHERE-clause group: splits the text
after WHERE into (group, remainder from match.end(1)). -/
def findGroup1 (prev : Char) : List Char → List Char × List Char
  | [] => ([], [])
  | l@(c :: cs) =>
    if termAt prev l then ([], l)
    else
      let p := findGroup1 c cs
      (c :: p.1, p.2)

/-- Leftmost match of the WHERE regex: returns
(text up to match.start(1) — i.e. everything up to and including the
matched WHERE word —, the captured clause body, the suffix from
match.end(1)). -/
def searchWhere : Option Char → List Char → Option (List Char × List Char × List Char)
  | _, [] => none
  | prev, l@(c :: cs) =>
    if wordKwAt "WHERE".data prev l then
      let p := findGroup1 'E' (l.drop 5)
      some (l.take 5, p.1, p.2)
    else
      match searchWhere (some c) cs with
      | some (pre, g, rem) => some (c :: pre, g, rem)
      | none => none

/-- Whole-word, case-insensitive occurrence of WHERE anywhere in the
text: the applicability condition of the WHERE regex. -/
def scanWordWhere : Option Char → List Char → Bool
  | _, [] => false
  | prev, l@(c :: cs) => wordKwAt "WHERE".data prev l || scanWordWhere (some c) cs

/-- The statement contains WHERE as a whole word, case-insensitively. -/
def hasWordWhere (l : List Char) : Bool := scanWordWhere none l

/-! ### The operator flip -/

/-- The flip_map dictionary lookup inside flip_operator (line 107-118):
flip_map.get(op, op). -/
def flip_operator (op : String) : String :=
  if op = ">=" then "<"
  else if op = "<=" then ">"
  else if op = "<>" then "="
  else if op = "!=" then "="
  else if op = ">" then "<="
  else if op = "<" then ">="
  else if op = "=" then "<>"
  else op

/-- re.sub(r.(>=|<=|<>|!=|>|<|=)., flip_operator, text): left-to-right,
non-overlapping, alternatives tried in the written order so two-char
operators win over their one-char prefixes. -/
def flipOps : List Char → List Char
  | [] => []
  | '>' :: '=' :: rest => (flip_operator ">=").data ++ flipOps rest
  | '<' :: '=' :: rest => (flip_operator "<=").data ++ flipOps rest
  | '<' :: '>' :: rest => (flip_operator "<>").data ++ flipOps rest
  | '!' :: '=' :: rest => (flip_operator "!=").data ++ flipOps rest
  | '>' :: rest => (flip_operator ">").data ++ flipOps rest
  | '<' :: rest => (flip_operator "<").data ++ flipOps rest
  | '=' :: rest => (flip_operator "=").data ++ flipOps rest
  | c :: rest => c :: flipOps rest

/-! ### The two suggesters and the facade -/

/-- Result of one cursor.execute call: a database error (psycopg Error),
or success with cursor.description — none for a non-tabular result,
otherwise the ordered (column name, type OID) descriptors. -/
inductive ExecResult where
  | dbError : ExecResult
  | ok : Option (List (String × Nat)) → ExecResult

/-- numeric_types, line 71: common numeric type OIDs. -/
def numeric_types : List Nat := [23, 20, 21, 700, 701, 1700, 1114]

/-- One per-column aggregate group from line 83 (note the lowercase
keyword "as" in the source f-string). -/
def aggGroup (c : String) : List Char :=
  "COUNT(".data ++ c.data ++ ") as count_".data ++ c.data ++
  ", SUM(".data ++ c.data ++ ") as sum_".data ++ c.data ++
  ", AVG(".data ++ c.data ++ ") as avg_".data ++ c.data

/-- ", ".join(groups), line 85. -/
def joinCommaSp : List (List Char) → List Char
  | [] => []
  | [x] => x
  | x :: xs => x ++ ", ".data ++ joinCommaSp xs

/-- suggest_aggregate_query, lines 38-91.  `cursor` none models
self.cursor = None; the Except.error () value models the uncaught
AttributeError raised by None.execute inside the try block, which the
`except Error` clause does not catch.  The dead local `columns`
(line 58) is computed from the clause but never used and is omitted. -/
def suggest_aggregate_query (cursor : Option (String → ExecResult))
    (sql_command : String) : Except Unit (Option String) :=
  if "SELECT".data.isPrefixOf (pyStrip (sql_command.data.map Char.toUpper)) then
    match searchSelectFrom sql_command.data with
    | none => .ok none
    | some (g, rest_of_query) =>
      if hasAggKw sql_command.data then .ok none
      else if pyStrip g == ['*'] then .ok none
      else
        match cursor with
        | none => .error ()
        | some exec =>
          match exec sql_command with
          | .dbError => .ok none
          | .ok none => .ok none
          | .ok (some descs) =>
            if descs.isEmpty then .ok none
            else
              let column_info := (descs.filter (fun d => numeric_types.contains d.2)).map Prod.fst
              if column_info.isEmpty then .ok none
              else .ok (some ⟨"SELECT ".data ++ joinCommaSp (column_info.map aggGroup) ++ rest_of_query⟩)
  else .ok none

/-- suggest_flipped_conditions, lines 94-125.  The re.sub runs over
" " + group(1).strip(), and the result is spliced between
sql[:match.start(1)] and sql[match.end(1):]. -/
def suggest_flipped_conditions (sql_command : String) : Option String :=
  if containsSub "WHERE".data (sql_command.data.map Char.toUpper) then
    match searchWhere none sql_command.data with
    | some (before_where, g, after_where) =>
      some ⟨before_where ++ flipOps (' ' :: pyStrip g) ++ after_where⟩
    | none => none
  else none

def agg_rationale : String :=
  "This query might be worth running to get an average of the data you just retrieved."

def flip_rationale : String :=
  "These queries could help you by giving you the data you haven\x27t seen yet."

/-- print_query_suggestions, lines 128-148, restricted to the suggestion
list it builds (the printing itself is I/O).  Python truthiness of the
two optional strings is the explicit non-empty test. -/
def print_query_suggestions (cursor : Option (String → ExecResult))
    (sql_command : String) : Except Unit (List (String × String × String)) :=
  match suggest_aggregate_query cursor sql_command with
  | .error e => .error e
  | .ok agg =>
    let s1 : List (String × String × String) :=
      match agg with
      | some q => if q ≠ "" then [("Aggregate Query", q, agg_rationale)] else []
      | none => []
    let s2 : List (String × String × String) :=
      match suggest_flipped_conditions sql_command with
      | some q => if q ≠ "" then [("Flipped Conditions", q, flip_rationale)] else []
      | none => []
    .ok (s1 ++ s2)

/-! ## Helper lemmas -/

/-- The search for a whole-word WHERE succeeds exactly when one occurs. -/
theorem searchWhere_isSome (prev : Option Char) (l : List Char) :
    (searchWhere prev l).isSome = scanWordWhere prev l := by
  induction l generalizing prev with
  | nil => rfl
  | cons c cs ih =>
    by_cases h : wordKwAt "WHERE".data prev (c :: cs) = true
    · simp [searchWhere, scanWordWhere, h]
    · simp only [searchWhere, scanWordWhere, h, if_neg, Bool.false_or]
      rw [← ih (some c)]
      cases hs : searchWhere (some c) cs with
      | none => simp [h, hs]
      | some p => obtain ⟨pre, g, rem⟩ := p; simp [h, hs]

/-- A case-insensitive match of an uppercase keyword gives a literal
match inside the uppercased text. -/
theorem ciPrefix_isPrefixOf_upper : ∀ (kw s : List Char),
    (∀ k ∈ kw, k.toUpper = k) → ciPrefix kw s = true →
    kw.isPrefixOf (s.map Char.toUpper) = true := by
  intro kw
  induction kw with
  | nil => intro s _ _; simp [List.isPrefixOf]
  | cons k ks ih =>
    intro s hk hci
    cases s with
    | nil => simp [ciPrefix] at hci
    | cons c cs =>
      simp only [ciPrefix, Bool.and_eq_true, beq_iff_eq] at hci
      obtain ⟨h1, h2⟩ := hci
      have hkk : k.toUpper = k := hk k (by simp)
      simp only [List.map_cons, List.isPrefixOf, Bool.and_eq_true, beq_iff_eq]
      exact ⟨by rw [← hkk, h1], ih cs (fun x hx => hk x (by simp [hx])) h2⟩

/-- A whole-word WHERE implies the uppercased statement contains the
substring WHERE, so the substring gate at line 98 passes. -/
theorem scanWordWhere_containsSub : ∀ (l : List Char) (prev : Option Char),
    scanWordWhere prev l = true →
    containsSub "WHERE".data (l.map Char.toUpper) = true := by
  intro l
  induction l with
  | nil => intro prev h; simp [scanWordWhere] at h
  | cons c cs ih =>
    intro prev h
    rw [scanWordWhere, Bool.or_eq_true] at h
    cases h with
    | inl hw =>
      have hci : ciPrefix "WHERE".data (c :: cs) = true := by
        simp only [wordKwAt, Bool.and_eq_true] at hw
        exact hw.1.2
      have hpre := ciPrefix_isPrefixOf_upper "WHERE".data (c :: cs) (by decide) hci
      rw [List.map_cons, containsSub, Bool.or_eq_true]
      exact Or.inl (by rw [← List.map_cons]; exact hpre)
    | inr hrec =>
      rw [List.map_cons, containsSub, Bool.or_eq_true]
      exact Or.inr (ih (some c) hrec)

/-- The head of a dropWhile result does not satisfy the predicate. -/
theorem dropWhile_head?_false {p : Char → Bool} :
    ∀ (l : List Char) (c : Char), (l.dropWhile p).head? = some c → p c = false := by
  intro l
  induction l with
  | nil => intro c h; simp at h
  | cons x xs ih =>
    intro c h
    by_cases hx : p x = true
    · rw [List.dropWhile_cons, if_pos hx] at h; exact ih c h
    · rw [List.dropWhile_cons, if_neg hx] at h
      simp only [List.head?_cons, Option.some.injEq] at h
      subst h; simpa using hx

/-- Dropping leading whitespace leaves the stripped text plus trailing
whitespace. -/
theorem dropWhile_eq_pyStrip_append (l : List Char) :
    ∃ ws2, l.dropWhile isPySpace = pyStrip l ++ ws2 ∧ ∀ c ∈ ws2, isPySpace c = true := by
  refine ⟨((l.dropWhile isPySpace).reverse.takeWhile isPySpace).reverse, ?_, ?_⟩
  · unfold pyStrip
    calc l.dropWhile isPySpace
        = (l.dropWhile isPySpace).reverse.reverse := by rw [List.reverse_reverse]
      _ = ((l.dropWhile isPySpace).reverse.takeWhile isPySpace ++
            (l.dropWhile isPySpace).reverse.dropWhile isPySpace).reverse := by
            rw [List.takeWhile_append_dropWhile]
      _ = ((l.dropWhile isPySpace).reverse.dropWhile isPySpace).reverse ++
            ((l.dropWhile isPySpace).reverse.takeWhile isPySpace).reverse := by
            rw [List.reverse_append]
  · intro c hc; rw [List.mem_reverse] at hc; exact List.mem_takeWhile_imp hc

/-- str.strip() splits the text into whitespace, stripped core,
whitespace. -/
theorem pyStrip_decomp (l : List Char) :
    ∃ ws1 ws2, l = ws1 ++ pyStrip l ++ ws2
      ∧ (∀ c ∈ ws1, isPySpace c = true) ∧ (∀ c ∈ ws2, isPySpace c = true) := by
  obtain ⟨ws2, hd, hws2⟩ := dropWhile_eq_pyStrip_append l
  refine ⟨l.takeWhile isPySpace, ws2, ?_, fun c hc => List.mem_takeWhile_imp hc, hws2⟩
  conv_lhs => rw [← List.takeWhile_append_dropWhile isPySpace l]
  rw [hd, List.append_assoc]

/-- The stripped text does not start with whitespace. -/
theorem pyStrip_head?_false (l : List Char) (c : Char)
    (h : (pyStrip l).head? = some c) : isPySpace c = false := by
  obtain ⟨ws2, hd, _⟩ := dropWhile_eq_pyStrip_append l
  apply dropWhile_head?_false l c
  rw [hd]
  cases hp : pyStrip l with
  | nil => rw [hp] at h; simp at h
  | cons x t =>
    rw [hp] at h
    simp only [List.head?_cons, Option.some.injEq] at h
    subst h
    simp

/-- The stripped text does not end with whitespace. -/
theorem pyStrip_getLast?_false (l : List Char) (c : Char)
    (h : (pyStrip l).getLast? = some c) : isPySpace c = false := by
  unfold pyStrip at h
  rw [List.getLast?_reverse] at h
  exact dropWhile_head?_false _ c h

/-- findGroup1 splits its input: group then remainder. -/
theorem findGroup1_append (prev : Char) (l : List Char) :
    (findGroup1 prev l).1 ++ (findGroup1 prev l).2 = l := by
  induction l generalizing prev with
  | nil => rfl
  | cons c cs ih =>
    rw [findGroup1]
    split
    · rfl
    · dsimp only
      rw [List.cons_append, ih c]

/-- A successful WHERE-regex match splits the statement into the text
up to match.start(1), the captured clause body, and the suffix from
match.end(1). -/
theorem searchWhere_decomp :
    ∀ (l : List Char) (prev : Option Char) (pre g rem : List Char),
      searchWhere prev l = some (pre, g, rem) → l = pre ++ g ++ rem := by
  intro l
  induction l with
  | nil => intro prev pre g rem h; simp [searchWhere] at h
  | cons c cs ih =>
    intro prev pre g rem h
    rw [searchWhere] at h
    split at h
    · dsimp only at h
      injection h with h'
      injection h' with h1 h23
      injection h23 with h2 h3
      subst h1; subst h2; subst h3
      rw [List.append_assoc, findGroup1_append, List.take_append_drop]
    · cases hs : searchWhere (some c) cs with
      | none => rw [hs] at h; simp at h
      | some p =>
        obtain ⟨pre1, g1, rem1⟩ := p
        rw [hs] at h
        dsimp only at h
        injection h with h'
        injection h' with h1 h23
        injection h23 with h2 h3
        subst h1; subst h2; subst h3
        simp only [List.cons_append]
        exact congrArg (c :: ·) (ih (some c) pre1 g1 rem1 hs)

/-- Shape of every non-none result of the condition flipper. -/
theorem flip_some_shape (sql out : String)
    (h : suggest_flipped_conditions sql = some out) :
    ∃ pre g rem, searchWhere none sql.data = some (pre, g, rem) ∧
      out.data = pre ++ (' ' :: flipOps (pyStrip g)) ++ rem := by
  unfold suggest_flipped_conditions at h
  split at h
  · split at h
    · rename_i heq
      injection h with h'
      refine ⟨_, _, _, heq, ?_⟩
      rw [← h']
      rfl
    · simp at h
  · simp at h

/-- A successful group search ends right before whitespace followed by
FROM, and splits its input. -/
theorem findGroupEnd_sound :
    ∀ (l g rem : List Char), findGroupEnd l = some (g, rem) →
      l = g ++ rem ∧ wsRun rem ≠ 0 ∧ ciPrefix "FROM".data (rem.drop (wsRun rem)) = true := by
  intro l
  induction l with
  | nil => intro g rem h; simp [findGroupEnd] at h
  | cons c cs ih =>
    intro g rem h
    rw [findGroupEnd] at h
    split at h
    · rename_i hcond
      injection h with h'
      injection h' with h1 h2
      subst h1; subst h2
      simp only [Bool.and_eq_true, bne_iff_ne, ne_eq] at hcond
      exact ⟨rfl, hcond.1, hcond.2⟩
    · cases hfg : findGroupEnd cs with
      | none => rw [hfg] at h; simp at h
      | some p =>
        obtain ⟨g1, rem1⟩ := p
        rw [hfg] at h
        injection h with h'
        injection h' with h1 h2
        subst h1; subst h2
        obtain ⟨ha, hb, hc⟩ := ih g1 rem1 hfg
        exact ⟨by rw [List.cons_append, ← ha], hb, hc⟩

/-- The whitespace backtracking loop only ever returns a group search
result for some run length. -/
theorem jLoop_sound :
    ∀ (j : Nat) (rest : List Char) (j1 : Nat) (g rem : List Char),
      jLoop j rest = some (j1, g, rem) → findGroupEnd (rest.drop j1) = some (g, rem) := by
  intro j
  induction j with
  | zero => intro rest j1 g rem h; simp [jLoop] at h
  | succ n ih =>
    intro rest j1 g rem h
    rw [jLoop] at h
    cases hfg : findGroupEnd (rest.drop (n+1)) with
    | some p =>
      obtain ⟨g0, rem0⟩ := p
      rw [hfg] at h
      injection h with h'
      injection h' with h1 h23
      injection h23 with h2 h3
      subst h1; subst h2; subst h3
      exact hfg
    | none =>
      rw [hfg] at h
      exact ih rest j1 g rem h

/-- A successful projection-list match yields a genuine split of the
statement, and the reused suffix starts with whitespace then FROM. -/
theorem searchSelectFrom_sound :
    ∀ (l g rem : List Char), searchSelectFrom l = some (g, rem) →
      (∃ pre, l = pre ++ g ++ rem) ∧ wsRun rem ≠ 0 ∧
        ciPrefix "FROM".data (rem.drop (wsRun rem)) = true := by
  intro l
  induction l with
  | nil => intro g rem h; simp [searchSelectFrom] at h
  | cons c cs ih =>
    intro g rem h
    rw [searchSelectFrom] at h
    have step : searchSelectFrom cs = some (g, rem) →
        (∃ pre, c :: cs = pre ++ g ++ rem) ∧ wsRun rem ≠ 0 ∧
          ciPrefix "FROM".data (rem.drop (wsRun rem)) = true := by
      intro hrec
      obtain ⟨⟨pre, hp⟩, hb, hc⟩ := ih g rem hrec
      refine ⟨⟨c :: pre, ?_⟩, hb, hc⟩
      simp only [List.cons_append]
      exact congrArg (c :: ·) hp
    split at h
    · cases hj : jLoop (wsRun ((c :: cs).drop 6)) ((c :: cs).drop 6) with
      | none => rw [hj] at h; exact step h
      | some p =>
        obtain ⟨j1, g0, rem0⟩ := p
        rw [hj] at h
        injection h with h'
        injection h' with h1 h2
        subst h1; subst h2
        obtain ⟨ha, hb, hc⟩ := findGroupEnd_sound _ _ _ (jLoop_sound _ _ _ _ _ hj)
        refine ⟨⟨(c :: cs).take 6 ++ ((c :: cs).drop 6).take j1, ?_⟩, hb, hc⟩
        have hj1 := List.take_append_drop j1 ((c :: cs).drop 6)
        rw [ha] at hj1
        calc c :: cs = (c :: cs).take 6 ++ (c :: cs).drop 6 :=
              (List.take_append_drop 6 (c :: cs)).symm
          _ = (c :: cs).take 6 ++ (((c :: cs).drop 6).take j1 ++ (g0 ++ rem0)) := by
              rw [hj1]
          _ = (c :: cs).take 6 ++ ((c :: cs).drop 6).take j1 ++ g0 ++ rem0 := by
              simp [List.append_assoc]
    · exact step h

/-- Shape of every successful aggregate rewrite: a fixed SELECT prefix,
the joined aggregate groups of a non-empty column list, and the suffix
of the original statement from the end of the projection list. -/
theorem agg_ok_some_shape (cursor : Option (String → ExecResult)) (sql out : String)
    (h : suggest_aggregate_query cursor sql = .ok (some out)) :
    ∃ g rem cols, searchSelectFrom sql.data = some (g, rem) ∧ cols ≠ [] ∧
      out.data = "SELECT ".data ++ joinCommaSp (cols.map aggGroup) ++ rem := by
  unfold suggest_aggregate_query at h
  split at h
  case isFalse => simp at h
  split at h
  case h_1 => simp at h
  rename_i g0 rem0 heq
  split at h
  case isTrue => simp at h
  split at h
  case isTrue => simp at h
  split at h
  case h_1 => simp at h
  rename_i exec hcur
  split at h
  case h_1 => simp at h
  case h_2 => simp at h
  rename_i descs hexec
  split at h
  case isTrue => simp at h
  dsimp only at h
  split at h
  case isTrue => simp at h
  rename_i hne
  injection h with h'
  injection h' with h''
  refine ⟨g0, rem0, _, heq, ?_, by rw [← h'']⟩
  intro hnil
  rw [hnil] at hne
  simp at hne

/-! ## Claims -/

/-- C1: on the statement SELECT * FROM t WHERE x >= 5 AND y != 3 ORDER
BY x, the flipper does invert each operator by the fixed table with
longest-operator-first matching and leaves the text before the clause
body unchanged, but the actual output differs from the documented one:
the clause body is stripped of its trailing space and that space is not
restored, so the literal 3 is glued directly onto ORDER BY and the
suggested statement is not the one the claim states. -/
theorem flip_example_actual_output :
    suggest_flipped_conditions "SELECT * FROM t WHERE x >= 5 AND y != 3 ORDER BY x"
      = some "SELECT * FROM t WHERE x < 5 AND y = 3ORDER BY x" ∧
    (("SELECT * FROM t WHERE x < 5 AND y = 3ORDER BY x" : String)
      == "SELECT * FROM t WHERE x < 5 AND y = 3 ORDER BY x") = false :=
  ⟨rfl, by decide⟩

/-- C2 counterexample: the inversion map is not an involution on all
seven operators. -/
theorem flip_operator_not_involutive :
    ([">=", "<=", "<>", "!=", ">", "<", "="].all
      (fun op => flip_operator (flip_operator op) == op)) = false := by
  decide

/-- C2 amended: the inversion map is its own inverse on the six
operators other than !=, while != flips to = and back to <>, which is
logically but not textually the original operator. -/
theorem flip_operator_involutive_except_bang_eq :
    flip_operator (flip_operator ">=") = ">=" ∧
    flip_operator (flip_operator "<=") = "<=" ∧
    flip_operator (flip_operator "<>") = "<>" ∧
    flip_operator (flip_operator ">") = ">" ∧
    flip_operator (flip_operator "<") = "<" ∧
    flip_operator (flip_operator "=") = "=" ∧
    flip_operator (flip_operator "!=") = "<>" := by
  decide

/-- C3 counterexample: on SELECT a, b FROM t with column a numeric
(OID 23) and column b non-numeric (OID 25), the rewrite drops b and
keeps FROM t, but the emitted alias keyword is the lowercase "as" of
the source f-string, not the uppercase AS of the claimed string. -/
theorem aggregate_example_not_uppercase_as :
    suggest_aggregate_query (some fun _ => ExecResult.ok (some [("a", 23), ("b", 25)]))
        "SELECT a, b FROM t"
      = .ok (some "SELECT COUNT(a) as count_a, SUM(a) as sum_a, AVG(a) as avg_a FROM t") ∧
    (("SELECT COUNT(a) as count_a, SUM(a) as sum_a, AVG(a) as avg_a FROM t" : String)
      == "SELECT COUNT(a) AS count_a, SUM(a) AS sum_a, AVG(a) AS avg_a FROM t") = false :=
  ⟨rfl, by decide⟩

/-- C3 amended: on SELECT a, b FROM t with a numeric and b non-numeric,
the rewrite returns exactly SELECT COUNT(a) as count_a, SUM(a) as
sum_a, AVG(a) as avg_a FROM t: the non-numeric column is dropped, FROM
t is untouched, and the alias keyword is lowercase. -/
theorem aggregate_example_output :
    suggest_aggregate_query (some fun _ => ExecResult.ok (some [("a", 23), ("b", 25)]))
        "SELECT a, b FROM t"
      = .ok (some "SELECT COUNT(a) as count_a, SUM(a) as sum_a, AVG(a) as avg_a FROM t") :=
  rfl

/-- C4 counterexample: with no cursor established, a statement passing
all aggregate gates makes suggest_aggregate_query raise (the
AttributeError of None.execute is not caught by except Error), and the
facade propagates it. -/
theorem suggester_raises_without_cursor :
    suggest_aggregate_query none "SELECT a FROM t" = .error () ∧
    print_query_suggestions none "SELECT a FROM t" = .error () :=
  ⟨rfl, rfl⟩

/-- C4 amended: whenever a cursor is established the engine is total:
for every statement and every executor behaviour both
suggest_aggregate_query and the facade return normally with a value
(the flipper is total by construction); only the never-connected state
raises. -/
theorem suggesters_return_normally_with_cursor (exec : String → ExecResult) (sql : String) :
    (∃ v, suggest_aggregate_query (some exec) sql = .ok v) ∧
    (∃ l, print_query_suggestions (some exec) sql = .ok l) := by
  have h1 : ∃ v, suggest_aggregate_query (some exec) sql = .ok v := by
    unfold suggest_aggregate_query
    repeat' first
      | exact ⟨_, rfl⟩
      | split
      | dsimp only
      | simp_all
  obtain ⟨v, hv⟩ := h1
  refine ⟨⟨v, hv⟩, ?_⟩
  unfold print_query_suggestions
  rw [hv]
  exact ⟨_, rfl⟩

/-- C5 counterexample: on the statement select x from t (lowercase),
the rewrite succeeds but the text before the projection list — the
lowercase keyword select — does not appear in the output: the code
replaces the whole prefix up to the projection list with the fixed
uppercase text SELECT followed by one space. -/
theorem aggregate_rewrites_text_before_projection :
    suggest_aggregate_query (some fun _ => ExecResult.ok (some [("x", 23)])) "select x from t"
      = .ok (some "SELECT COUNT(x) as count_x, SUM(x) as sum_x, AVG(x) as avg_x from t") ∧
    (("select x from t" : String).data.take 6 == "select".data) = true ∧
    (("SELECT COUNT(x) as count_x, SUM(x) as sum_x, AVG(x) as avg_x from t" : String).data.take 6
      == "select".data) = false :=
  ⟨rfl, by decide, by decide⟩

/-- C5 amended: every successful rewrite preserves, byte for byte, the
suffix of the original statement from the end of the projection list
onward — that suffix starts with whitespace followed by FROM — while
everything before it (including the original SELECT keyword and its
spacing) is replaced by the fixed prefix SELECT plus the aggregate
projection built from a non-empty column list. -/
theorem aggregate_frame_property (cursor : Option (String → ExecResult)) (sql out : String)
    (h : suggest_aggregate_query cursor sql = .ok (some out)) :
    ∃ pre rem cols, cols ≠ [] ∧
      sql.data = pre ++ rem ∧
      out.data = "SELECT ".data ++ joinCommaSp (cols.map aggGroup) ++ rem ∧
      wsRun rem ≠ 0 ∧ ciPrefix "FROM".data (rem.drop (wsRun rem)) = true := by
  obtain ⟨g, rem, cols, hs, hcols, hout⟩ := agg_ok_some_shape cursor sql out h
  obtain ⟨⟨pre0, hdecomp⟩, hws, hfrom⟩ := searchSelectFrom_sound sql.data g rem hs
  exact ⟨pre0 ++ g, rem, cols, hcols, hdecomp, hout, hws, hfrom⟩

/-- C5 witness: the frame property instantiated on SELECT a FROM t. -/
theorem aggregate_frame_property_witness :
    ∃ pre rem cols, cols ≠ [] ∧
      ("SELECT a FROM t" : String).data = pre ++ rem ∧
      ("SELECT COUNT(a) as count_a, SUM(a) as sum_a, AVG(a) as avg_a FROM t" : String).data
        = "SELECT ".data ++ joinCommaSp (cols.map aggGroup) ++ rem ∧
      wsRun rem ≠ 0 ∧ ciPrefix "FROM".data (rem.drop (wsRun rem)) = true :=
  aggregate_frame_property (some fun _ => ExecResult.ok (some [("a", 23)]))
    "SELECT a FROM t"
    "SELECT COUNT(a) as count_a, SUM(a) as sum_a, AVG(a) as avg_a FROM t" rfl

/-- C6: if the probing execution raises a database error, the suggester
returns the absence value and the error does not propagate (the earlier
gates return the absence value without ever executing). -/
theorem aggregate_absorbs_db_error (exec : String → ExecResult) (sql : String)
    (h : exec sql = ExecResult.dbError) :
    suggest_aggregate_query (some exec) sql = .ok none := by
  unfold suggest_aggregate_query
  repeat' split <;> simp_all

/-- C6 witness: a database error on SELECT a FROM t yields no
suggestion. -/
theorem aggregate_absorbs_db_error_witness :
    suggest_aggregate_query (some fun _ => ExecResult.dbError) "SELECT a FROM t" = .ok none :=
  aggregate_absorbs_db_error (fun _ => ExecResult.dbError) "SELECT a FROM t" rfl

/-- C7: when both suggesters produce a result on the same statement,
the facade returns exactly two suggestions, Aggregate Query first, then
Flipped Conditions, each paired with its fixed rationale. -/
theorem facade_two_suggestions_in_order (cursor : Option (String → ExecResult))
    (sql a f : String)
    (ha : suggest_aggregate_query cursor sql = .ok (some a))
    (hf : suggest_flipped_conditions sql = some f) :
    print_query_suggestions cursor sql =
      .ok [("Aggregate Query", a, agg_rationale), ("Flipped Conditions", f, flip_rationale)] := by
  have hane : a ≠ "" := by
    obtain ⟨g, rem, cols, _, _, hout⟩ := agg_ok_some_shape cursor sql a ha
    intro he
    rw [he] at hout
    have h0 : ([] : List Char) = "SELECT ".data ++ joinCommaSp (cols.map aggGroup) ++ rem := hout
    have := congrArg List.length h0
    simp [List.length_append] at this
  have hfne : f ≠ "" := by
    obtain ⟨pre, g, rem, _, hout⟩ := flip_some_shape sql f hf
    intro he
    rw [he] at hout
    have h0 : ([] : List Char) = pre ++ (' ' :: flipOps (pyStrip g)) ++ rem := hout
    have := congrArg List.length h0
    simp [List.length_append] at this
    omega
  unfold print_query_suggestions
  rw [ha, hf]
  simp [hane, hfne]

/-- C7 witness: both suggesters fire on SELECT a FROM t WHERE a > 0. -/
theorem facade_two_suggestions_in_order_witness :
    print_query_suggestions (some fun _ => ExecResult.ok (some [("a", 23)]))
        "SELECT a FROM t WHERE a > 0" =
      .ok [("Aggregate Query",
            "SELECT COUNT(a) as count_a, SUM(a) as sum_a, AVG(a) as avg_a FROM t WHERE a > 0",
            agg_rationale),
           ("Flipped Conditions", "SELECT a FROM t WHERE a <= 0", flip_rationale)] :=
  facade_two_suggestions_in_order (some fun _ => ExecResult.ok (some [("a", 23)]))
    "SELECT a FROM t WHERE a > 0"
    "SELECT COUNT(a) as count_a, SUM(a) as sum_a, AVG(a) as avg_a FROM t WHERE a > 0"
    "SELECT a FROM t WHERE a <= 0" rfl rfl

/-- C8: any statement containing COUNT, SUM, AVG, MIN, MAX or GROUP BY
as a whole word (case-insensitively) gets no aggregate suggestion, in
every executor state. -/
theorem aggregate_none_on_aggregate_keyword (cursor : Option (String → ExecResult))
    (sql : String) (h : hasAggKw sql.data = true) :
    suggest_aggregate_query cursor sql = .ok none := by
  unfold suggest_aggregate_query
  split
  · split
    · rfl
    · simp [h]
  · rfl

/-- C8 witness: SELECT COUNT(x) FROM t contains an aggregate keyword
and gets no suggestion. -/
theorem aggregate_none_on_aggregate_keyword_witness :
    hasAggKw ("SELECT COUNT(x) FROM t" : String).data = true ∧
    suggest_aggregate_query none "SELECT COUNT(x) FROM t" = .ok none :=
  ⟨by decide, aggregate_none_on_aggregate_keyword none "SELECT COUNT(x) FROM t" (by decide)⟩

/-- C9: the flipper produces a suggestion exactly when the statement
contains WHERE as a whole word, case-insensitively: the substring gate
is implied by the whole-word search, a clause body without any
comparison operator still produces a result, and WHERE buried inside a
longer word produces none. -/
theorem flip_some_iff_whole_word_where (sql : String) :
    (suggest_flipped_conditions sql).isSome = true ↔ hasWordWhere sql.data = true := by
  unfold suggest_flipped_conditions hasWordWhere
  by_cases hc : containsSub "WHERE".data (sql.data.map Char.toUpper) = true
  · simp only [hc, if_true]
    rw [← searchWhere_isSome none sql.data]
    cases hs : searchWhere none sql.data with
    | none => simp
    | some p => obtain ⟨a, b, c⟩ := p; simp
  · simp only [hc, if_false]
    constructor
    · intro h; simp at h
    · intro h; exact absurd (scanWordWhere_containsSub sql.data none h) hc

/-- C10: every flipped suggestion arises by splitting the statement at
the WHERE-clause body, surrounding whitespace of the body being
discarded: the output is the text up to and including WHERE, one single
space, the flipped trimmed body (which neither starts nor ends with
whitespace), and the unchanged suffix from the clause boundary. -/
theorem flip_normalizes_whitespace (sql out : String)
    (h : suggest_flipped_conditions sql = some out) :
    ∃ pre ws1 body ws2 rem,
      sql.data = pre ++ (ws1 ++ body ++ ws2) ++ rem ∧
      (∀ c ∈ ws1, isPySpace c = true) ∧
      (∀ c ∈ ws2, isPySpace c = true) ∧
      (∀ c, body.head? = some c → isPySpace c = false) ∧
      (∀ c, body.getLast? = some c → isPySpace c = false) ∧
      out.data = pre ++ (' ' :: flipOps body) ++ rem := by
  obtain ⟨pre, g, rem, hs, hout⟩ := flip_some_shape sql out h
  obtain ⟨ws1, ws2, hg, hws1, hws2⟩ := pyStrip_decomp g
  refine ⟨pre, ws1, pyStrip g, ws2, rem, ?_, hws1, hws2,
    fun c hc => pyStrip_head?_false g c hc,
    fun c hc => pyStrip_getLast?_false g c hc, hout⟩
  rw [searchWhere_decomp sql.data none pre g rem hs]
  rw [← hg]

/-- C10 witness: on SELECT * FROM t WHERE  ready  (double space after
WHERE, trailing spaces, no comparison operator in the body) the output
differs from the input although nothing was flipped. -/
theorem flip_normalizes_whitespace_witness :
    suggest_flipped_conditions "SELECT * FROM t WHERE  ready "
      = some "SELECT * FROM t WHERE ready" ∧
    (∃ pre ws1 body ws2 rem,
      ("SELECT * FROM t WHERE  ready " : String).data = pre ++ (ws1 ++ body ++ ws2) ++ rem ∧
      (∀ c ∈ ws1, isPySpace c = true) ∧
      (∀ c ∈ ws2, isPySpace c = true) ∧
      (∀ c, body.head? = some c → isPySpace c = false) ∧
      (∀ c, body.getLast? = some c → isPySpace c = false) ∧
      ("SELECT * FROM t WHERE ready" : String).data = pre ++ (' ' :: flipOps body) ++ rem) ∧
    (("SELECT * FROM t WHERE ready" : String) == "SELECT * FROM t WHERE  ready ") = false :=
  ⟨rfl, flip_normalizes_whitespace "SELECT * FROM t WHERE  ready "
    "SELECT * FROM t WHERE ready" rfl, by decide⟩

end DatabaseQuerySuggester
